import Mathlib

/-!
Verification development for the ragdb-mcp document-ingestion pipeline.

The TypeScript sources are shallowly embedded as pure Lean functions:

* `checkForDuplicates`, `makeAIDecision` — from
  `src/services/duplicate-check-service.ts` (class `DuplicateCheckService`);
* `addDocument`, `updateDocument`, `deleteDocument`, `searchDocuments`,
  `findExistingDocument`, `deleteDocumentChunks`,
  `addDocumentWithDuplicateCheck`, `createSkippedDocument` — from the LibSQL
  `RagService` (`src/services/rag-service.ts`);
* the fallible chunk-deletion step of the LibSQL, PgVector and Qdrant services
  — from `rag-service.ts`, `pgvector-rag-service.ts` and
  `qdrant-rag-service.ts`.

External collaborators are modelled as explicit parameters:

* the embedding provider is a deterministic oracle `embedOf : String → Vec`
  (spec §4.2: `embedOne`/`embedBatch` map texts to fixed vectors);
* the vector-storage backend (the `@mastra/*` libraries, spec §4.3) is a list
  of records; `query` filters by the metadata predicate and the optional
  `minScore`, truncates to `topK`, and scores results with a similarity
  oracle `sim`.  The backend ranks results by similarity; since the
  similarity oracle is arbitrary, the model returns them in store order and
  no theorem below depends on which record ranks first;
* the chunker (`MDocument.chunk`, spec §4.1) is an oracle
  `chunkTexts : String → List String` giving the chunk texts of a content;
* the text-generation call of the AI decision is a transcript
  (`List LLMOutcome`): each call consumes one outcome, which is either a
  thrown error or a reply text already composed with the JSON extraction
  (`result.text.match` of the brace regex) and `JSON.parse`;
* `randomUUID` is a caller-supplied fresh id, `new Date` a fixed timestamp.

Scores, thresholds and confidences are rationals (`ℚ`); the sources compare
them only with `<`/`>=`, never with float-specific operations.
-/

namespace RagDB

/-- JavaScript `x || d` on an optional string: the default is taken when the
value is `undefined` or the empty string (both falsy in JS). -/
def jsOr (o : Option String) (d : String) : String :=
  match o with
  | none => d
  | some s => if s = "" then d else s

/-- JavaScript `x || d` on an optional number (zero is falsy). -/
def jsOrNat (o : Option Nat) (d : Nat) : Nat :=
  match o with
  | none => d
  | some n => if n = 0 then d else n

/-- JavaScript truthiness test of an optional string, keeping the value:
`if (x)` succeeds exactly when `jsSome x` is `some`. -/
def jsSome (o : Option String) : Option String :=
  match o with
  | none => none
  | some s => if s = "" then none else some s

/-- The open metadata map of documents and chunks (`DocumentMetadata` /
`ChunkMetadata` in `src/types/index.ts`), restricted to the keys the embedded
operations read or write.  Every key is optional, as in the TS record type. -/
structure Meta where
  documentId : Option String := none
  chunkId : Option String := none
  text : Option String := none
  title : Option String := none
  source : Option String := none
  createdAt : Option String := none
  updatedAt : Option String := none
  skipped : Option Bool := none
  chunkIndex : Option Nat := none
  startPosition : Option Nat := none
  endPosition : Option Nat := none
  embeddingIndex : Option Nat := none
deriving DecidableEq

/-- An embedding vector. -/
abbrev Vec := List ℚ

/-- One record persisted in a vector-store index: id, vector and metadata
(spec §4.3 `upsert(indexName, ids, vectors, metadataRecords)`). -/
structure VecRecord where
  id : String
  vector : Vec
  meta : Meta
deriving DecidableEq

/-- The contents of one vector-store index. -/
abbrev Store := List VecRecord

/-- `SearchResult` of `src/types/index.ts`. -/
structure SearchResult where
  id : String
  content : String
  meta : Meta
  score : ℚ
deriving DecidableEq

/-- `SimilarDocument` of `src/types/index.ts`. -/
structure SimilarDocument where
  documentId : String
  content : String
  meta : Meta
  score : ℚ
  chunkId : Option String := none
deriving DecidableEq

/-- `AIDecision` of `src/types/index.ts`.  The TS field `action` is declared
as the union `"skip" | "update" | "add"` but is produced by a bare cast of
the parsed JSON, so at runtime it carries whatever string (or `undefined`)
the model answered; it is therefore embedded as `Option String`. -/
structure AIDecision where
  action : Option String
  reason : String
  targetDocumentId : Option String := none
  confidence : ℚ
deriving DecidableEq

/-- `DuplicateCheckConfig` of `src/types/index.ts`. -/
structure DuplicateCheckConfig where
  enabled : Bool
  threshold : ℚ
  strategy : String := "semantic"
  topK : Option Nat := none
deriving DecidableEq

/-- `DuplicateCheckResult` of `src/types/index.ts`. -/
structure DuplicateCheckResult where
  isDuplicate : Bool
  similarDocuments : List SimilarDocument
  decision : Option AIDecision := none
  threshold : ℚ
deriving DecidableEq

/-- `AIDecisionContext` of `src/types/index.ts`: the data from which
`createAIDecisionPrompt` builds the prompt.  The prompt string itself only
feeds the text-generation oracle, so its concatenation is not reproduced. -/
structure AIDecisionContext where
  newContent : String
  newMeta : Meta
  similarDocuments : List SimilarDocument
  threshold : ℚ

/-- The fields of the JSON object extracted from the model's reply, before
`makeAIDecision` normalises them (`parsed.action`, `parsed.reason`,
`parsed.targetDocumentId`, `parsed.confidence`).  All are optional: JS reads
of missing keys yield `undefined`. -/
structure ParsedDecision where
  action : Option String := none
  reason : Option String := none
  targetDocumentId : Option String := none
  confidence : Option ℚ := none
deriving DecidableEq

/-- Outcome of one `generateText` call as seen by `makeAIDecision`:
`failure` when the call throws; `reply none` when the reply contains no
brace-delimited JSON object or `JSON.parse` fails; `reply (some p)` when a
JSON object with the fields `p` was parsed. -/
inductive LLMOutcome where
  | failure : LLMOutcome
  | reply : Option ParsedDecision → LLMOutcome
deriving DecidableEq

/-- The deterministic fallback decision of `makeAIDecision`'s catch branch
(`duplicate-check-service.ts` lines 101–109). -/
def fallbackDecision : AIDecision :=
  { action := some "add"
    reason := "AI判断でエラーが発生したため、安全のため新規追加を推奨します。"
    targetDocumentId := none
    confidence := mkRat 1 2 }

/-- The body of `makeAIDecision` applied to one call outcome
(`duplicate-check-service.ts` lines 75–109): a thrown call or an
unparseable reply takes the catch branch; otherwise the parsed fields are
normalised (`reason || default`, `typeof confidence === "number" ? _ : 0.7`). -/
def processLLMOutcome (o : LLMOutcome) : AIDecision :=
  match o with
  | .failure => fallbackDecision
  | .reply none => fallbackDecision
  | .reply (some p) =>
      { action := p.action
        reason := jsOr p.reason "理由が提供されませんでした"
        targetDocumentId := p.targetDocumentId
        confidence := p.confidence.getD (mkRat 7 10) }

/-- `makeAIDecision` (`duplicate-check-service.ts` lines 72–110): one
`generateText` call — the head of the transcript — is consumed, never more
(there is no retry); an empty transcript behaves as a throwing call. -/
def makeAIDecision (ctx : AIDecisionContext) (transcript : List LLMOutcome) :
    AIDecision × List LLMOutcome :=
  match ctx, transcript with
  | _, [] => (fallbackDecision, [])
  | _, o :: rest => (processLLMOutcome o, rest)

/-- The mapping of one `SearchResult` to a `SimilarDocument`
(`duplicate-check-service.ts` lines 38–44): `documentId` is
`result.metadata.documentId || result.id`. -/
def toSimilarDocument (r : SearchResult) : SimilarDocument :=
  { documentId := jsOr r.meta.documentId r.id
    content := r.content
    meta := r.meta
    score := r.score
    chunkId := some r.id }

/-- `checkForDuplicates` (`duplicate-check-service.ts` lines 29–67):
filter the neighbor results by `score >= threshold`, map them to
`SimilarDocument`s, set `isDuplicate` when any remain, and request one AI
decision exactly when a duplicate was detected. -/
def checkForDuplicates (newContent : String) (newMeta : Meta)
    (existingSearchResults : List SearchResult) (config : DuplicateCheckConfig)
    (transcript : List LLMOutcome) :
    DuplicateCheckResult × List LLMOutcome :=
  let similarDocuments :=
    (existingSearchResults.filter fun r => config.threshold ≤ r.score).map
      toSimilarDocument
  if 0 < similarDocuments.length then
    let p := makeAIDecision
      { newContent := newContent, newMeta := newMeta
        similarDocuments := similarDocuments, threshold := config.threshold }
      transcript
    ({ isDuplicate := true, similarDocuments := similarDocuments
       decision := some p.1, threshold := config.threshold }, p.2)
  else
    ({ isDuplicate := false, similarDocuments := similarDocuments
       decision := none, threshold := config.threshold }, transcript)

/-- Environment of the `RagService`: the external collaborators, as
deterministic oracles.  `embedOf` is the embedding provider (§4.2), `sim`
the backend's similarity measure (§4.3), `chunkTexts` the chunker's text
segments for a content (§4.1), `dims` `getDefaultDimensions()`, `now` the
ISO timestamp of `new Date()`. -/
structure Env where
  embedOf : String → Vec
  sim : Vec → Vec → ℚ
  chunkTexts : String → List String
  dims : Nat
  now : String

/-- Modelled from the spec (§4.3): whether a record passes the metadata
filter; the embedded operations only ever filter on `documentId`. -/
def matchesFilter (docFilter : Option String) (c : VecRecord) : Bool :=
  match docFilter with
  | none => true
  | some d => c.meta.documentId = some d

/-- Modelled from the spec (§4.3): whether a record passes the optional
`minScore` bound of a query. -/
def passesMinScore (σ : Vec → Vec → ℚ) (qv : Vec) (minScore : Option ℚ)
    (c : VecRecord) : Bool :=
  match minScore with
  | none => true
  | some m => m ≤ σ qv c.vector

/-- Modelled from the spec (§4.3 `query`): the matching records, truncated to
`topK`, each paired with its similarity score against the query vector. -/
def storeQuery (σ : Vec → Vec → ℚ) (st : Store) (qv : Vec) (topK : Nat)
    (docFilter : Option String) (minScore : Option ℚ) :
    List (VecRecord × ℚ) :=
  (((st.filter (matchesFilter docFilter)).filter
      (passesMinScore σ qv minScore)).take topK).map
    fun c => (c, σ qv c.vector)

/-- Modelled from the spec (§4.3 `upsert`): positionally aligned ids, vectors
and metadata records; inserts or overwrites by id. -/
def storeUpsert (st : Store) (ids : List String) (vectors : List Vec)
    (metas : List Meta) : Store :=
  (ids.zip (vectors.zip metas)).foldl
    (fun s p => (s.filter fun c => c.id ≠ p.1) ++ [⟨p.1, p.2.1, p.2.2⟩]) st

/-- The logical `Document` of `src/types/index.ts`, as the pipeline returns
it (the `createdAt`/`updatedAt` `Date` objects carry no observable content
beyond the metadata timestamps and are omitted). -/
structure DocModel where
  id : String
  content : String
  meta : Meta
deriving DecidableEq

/-- `Chunk` of `src/types/index.ts`. -/
structure ChunkModel where
  id : String
  documentId : String
  content : String
  meta : Meta
deriving DecidableEq

/-- `chunkDocument` (`rag-service.ts`): the chunk texts come from the
chunker oracle; ids, `chunkIndex` and positions are assigned exactly as in
the source (`startPosition` is always 0, `endPosition` the text length). -/
def chunkDocument (e : Env) (doc : DocModel) : List ChunkModel :=
  (e.chunkTexts doc.content).mapIdx fun i t =>
    { id := doc.id ++ "_chunk_" ++ toString i
      documentId := doc.id
      content := t
      meta := { doc.meta with
                  chunkIndex := some i
                  startPosition := some 0
                  endPosition := some t.length } }

/-- The metadata records written by the upsert of `addDocument` /
`updateDocument`: the chunk metadata plus `text`, `documentId`, `chunkId`
and `embedding_index`. -/
def chunkUpsertMetas (doc : DocModel) (chunks : List ChunkModel) : List Meta :=
  chunks.mapIdx fun i ch =>
    { ch.meta with
        text := some ch.content
        documentId := some doc.id
        chunkId := some ch.id
        embeddingIndex := some i }

/-- `searchDocuments` (`rag-service.ts` lines 246–283): embed the query,
run a vector query with `minScore: options.minScore || 0`, and map records
to `SearchResult`s (`id: metadata.chunkId || id`, `content: metadata.text
|| ""`, chunk fields defaulted). -/
def searchDocuments (e : Env) (st : Store) (q : String) (topK : Nat)
    (minScore : ℚ) : List SearchResult :=
  (storeQuery e.sim st (e.embedOf q) topK none (some minScore)).map fun p =>
    { id := jsOr p.1.meta.chunkId p.1.id
      content := jsOr p.1.meta.text ""
      meta := { p.1.meta with
                  chunkIndex := some (p.1.meta.chunkIndex.getD 0)
                  startPosition := some (p.1.meta.startPosition.getD 0)
                  endPosition := some (p.1.meta.endPosition.getD 0) }
      score := p.2 }

/-- `findExistingDocument` (`rag-service.ts` lines 416–443): probe with the
first 100 characters, `topK: 1`; a top result with score above 0.95 is
taken to be the same document (`id: metadata.documentId || id`). -/
def findExistingDocument (e : Env) (st : Store) (content : String) :
    Option DocModel :=
  match searchDocuments e st (content.take 100) 1 0 with
  | [] => none
  | r :: _ =>
      if mkRat 95 100 < r.score then
        some { id := jsOr r.meta.documentId r.id
               content := r.content
               meta := r.meta }
      else none

/-- `deleteDocumentChunks` (`rag-service.ts` lines 448–478), success path:
query the index with a zero vector, `topK: 1000` and the `documentId`
filter, then delete each returned record by id.  (Its error handling is
modelled separately, see `deleteDocumentLibSql`.) -/
def deleteDocumentChunks (e : Env) (documentId : String) (st : Store) :
    Store :=
  let results := storeQuery e.sim st (List.replicate e.dims 0) 1000
    (some documentId) none
  results.foldl (fun s r => s.filter fun c => c.id ≠ r.1.id) st

/-- `updateDocument` (`rag-service.ts` lines 165–223): delete the existing
chunks, then — only when the new content is truthy — re-chunk, embed and
upsert; the returned document carries `content || ""` and an `updatedAt`
metadata stamp. -/
def updateDocument (e : Env) (documentId : String) (content? : Option String)
    (meta0 : Meta) (st : Store) : DocModel × Store :=
  let st1 := deleteDocumentChunks e documentId st
  let doc : DocModel :=
    { id := documentId
      content := content?.getD ""
      meta := { meta0 with updatedAt := some e.now } }
  match jsSome content? with
  | none => (doc, st1)
  | some _ =>
      let chunks := chunkDocument e doc
      let st2 := storeUpsert st1 (chunks.map fun ch => ch.id)
        (chunks.map fun ch => e.embedOf ch.content)
        (chunkUpsertMetas doc chunks)
      (doc, st2)

/-- `addDocument` (`rag-service.ts` lines 96–160): if the internal probe
finds an existing near-duplicate, redirect to `updateDocument` on its id;
otherwise create the document under the fresh id `uuid`, chunk, embed and
upsert. -/
def addDocument (e : Env) (uuid : String) (content : String) (meta0 : Meta)
    (st : Store) : DocModel × Store :=
  match findExistingDocument e st content with
  | some existing => updateDocument e existing.id (some content) meta0 st
  | none =>
      let doc : DocModel :=
        { id := uuid
          content := content
          meta := { meta0 with
                      source := some (jsOr meta0.source "manual_input")
                      createdAt := some e.now } }
      let chunks := chunkDocument e doc
      let st2 := storeUpsert st (chunks.map fun ch => ch.id)
        (chunks.map fun ch => e.embedOf ch.content)
        (chunkUpsertMetas doc chunks)
      (doc, st2)

/-- `deleteDocument` (`rag-service.ts` lines 228–241), success path. -/
def deleteDocument (e : Env) (documentId : String) (st : Store) : Store :=
  deleteDocumentChunks e documentId st

/-- `createSkippedDocument` (`rag-service.ts` lines 609–625): the placeholder
returned for a skipped add, with `skipped: true` in its metadata. -/
def createSkippedDocument (e : Env) (uuid : String) (content : String)
    (meta0 : Meta) : DocModel :=
  { id := "skipped-" ++ uuid
    content := content
    meta := { meta0 with
                source := some (jsOr meta0.source "manual_input")
                createdAt := some e.now
                skipped := some true } }

/-- `AddDocumentResult` of `src/types/index.ts`. -/
structure AddResult where
  document : DocModel
  duplicateCheck : Option DuplicateCheckResult := none
  action : String
  message : String
deriving DecidableEq

/-- The message of the `action: "added"` branch of
`addDocumentWithDuplicateCheck` (`rag-service.ts` lines 589–591). -/
def addedMessage (dcr? : Option DuplicateCheckResult) : String :=
  match dcr? with
  | some dcr =>
      if dcr.isDuplicate then
        "類似ドキュメントが見つかりましたが、新規追加しました。理由: " ++
          jsOr (dcr.decision.map fun d => d.reason) "AI判断により新規追加"
      else "新規ドキュメントを追加しました。"
  | none => "新規ドキュメントを追加しました。"

/-- The neighbor search of `addDocumentWithDuplicateCheck`
(`rag-service.ts` lines 496–527): embed the first 1000 characters, query
with `topK: config.topK || 10`, and map the raw records to `SearchResult`s
(`content: metadata.text || ""`, chunk fields defaulted, `endPosition`
falling back to the text length). -/
def dupCheckProbe (e : Env) (cfg : DuplicateCheckConfig) (content : String)
    (st : Store) : List SearchResult :=
  (storeQuery e.sim st (e.embedOf (content.take 1000)) (jsOrNat cfg.topK 10)
      none none).map fun p =>
    { id := p.1.id
      content := jsOr p.1.meta.text ""
      meta := { p.1.meta with
                  chunkIndex := some (p.1.meta.chunkIndex.getD 0)
                  startPosition := some (p.1.meta.startPosition.getD 0)
                  endPosition := some (jsOrNat p.1.meta.endPosition
                    (jsOrNat (p.1.meta.text.map fun t => t.length) 0)) }
      score := p.2 }

/-- `addDocumentWithDuplicateCheck` (`rag-service.ts` lines 483–604).
When the config enables the check: search neighbors, run
`checkForDuplicates`, and branch on the decision — `skip` returns the
placeholder without touching the store, `update` with a truthy
`targetDocumentId` redirects to `updateDocument`, everything else (including
`update` without a target) falls through to the normal `addDocument`. -/
def addDocumentWithDuplicateCheck (e : Env) (uuid : String) (content : String)
    (meta0 : Meta) (config? : Option DuplicateCheckConfig)
    (transcript : List LLMOutcome) (st : Store) :
    AddResult × Store × List LLMOutcome :=
  match config? with
  | some cfg =>
      if cfg.enabled then
        let p := checkForDuplicates content meta0
          (dupCheckProbe e cfg content st) cfg transcript
        let dcr := p.1
        if dcr.isDuplicate then
          match dcr.decision with
          | some d =>
              if d.action = some "skip" then
                ({ document := createSkippedDocument e uuid content meta0
                   duplicateCheck := some dcr
                   action := "skipped"
                   message := "ドキュメントの追加をスキップしました。理由: "
                     ++ d.reason }, st, p.2)
              else if d.action = some "update" then
                match jsSome d.targetDocumentId with
                | some target =>
                    let u := updateDocument e target (some content) meta0 st
                    ({ document := u.1
                       duplicateCheck := some dcr
                       action := "updated"
                       message := "既存ドキュメントを更新しました。理由: "
                         ++ d.reason }, u.2, p.2)
                | none =>
                    let a := addDocument e uuid content meta0 st
                    ({ document := a.1
                       duplicateCheck := some dcr
                       action := "added"
                       message := addedMessage (some dcr) }, a.2, p.2)
              else
                let a := addDocument e uuid content meta0 st
                ({ document := a.1
                   duplicateCheck := some dcr
                   action := "added"
                   message := addedMessage (some dcr) }, a.2, p.2)
          | none =>
              let a := addDocument e uuid content meta0 st
              ({ document := a.1
                 duplicateCheck := some dcr
                 action := "added"
                 message := addedMessage (some dcr) }, a.2, p.2)
        else
          let a := addDocument e uuid content meta0 st
          ({ document := a.1
             duplicateCheck := some dcr
             action := "added"
             message := addedMessage (some dcr) }, a.2, p.2)
      else
        let a := addDocument e uuid content meta0 st
        ({ document := a.1
           duplicateCheck := none
           action := "added"
           message := addedMessage none }, a.2, transcript)
  | none =>
      let a := addDocument e uuid content meta0 st
      ({ document := a.1
         duplicateCheck := none
         action := "added"
         message := addedMessage none }, a.2, transcript)

/-- `RagError` of `src/types/index.ts`, reduced to its machine-readable
code. -/
structure RagErrorModel where
  code : String
deriving DecidableEq

/-- Failure behaviour of the backend calls made by a `deleteDocumentChunks`
implementation: the outcome of the metadata-filtered query (the ids it
returns, or a thrown error) and the outcome of each per-id `deleteVector`
call. -/
structure FallibleBackend where
  queryOutcome : Except Unit (List String)
  deleteOutcome : String → Except Unit Unit

/-- The body shared by all three `deleteDocumentChunks` implementations:
query the document's chunk ids, then delete them one by one, stopping at
the first thrown error. -/
def runChunkDeletion (b : FallibleBackend) : Except Unit Unit :=
  match b.queryOutcome with
  | .error er => .error er
  | .ok ids =>
      ids.foldl
        (fun acc i =>
          match acc with
          | .error er => .error er
          | .ok _ => b.deleteOutcome i)
        (.ok ())

/-- `deleteDocumentChunks` of the LibSQL `RagService` (`rag-service.ts`
lines 448–478): the whole body is wrapped in `try { … } catch { console.warn;
}` — any failure is logged and swallowed, the method returns normally. -/
def deleteDocumentChunksLibSql (b : FallibleBackend) :
    Except RagErrorModel Unit :=
  match runChunkDeletion b with
  | .ok _ => .ok ()
  | .error _ => .ok ()

/-- `deleteDocumentChunks` of `PgVectorRagService`
(`pgvector-rag-service.ts` lines 586–614): identical catch-and-log
behaviour — failures are swallowed. -/
def deleteDocumentChunksPgVector (b : FallibleBackend) :
    Except RagErrorModel Unit :=
  match runChunkDeletion b with
  | .ok _ => .ok ()
  | .error _ => .ok ()

/-- `deleteDocumentChunks` of `QdrantRagService` (`qdrant-rag-service.ts`
lines 502–532): a failure is re-thrown as `RagError` with code
`CHUNK_DELETE_ERROR`. -/
def deleteDocumentChunksQdrant (b : FallibleBackend) :
    Except RagErrorModel Unit :=
  match runChunkDeletion b with
  | .ok _ => .ok ()
  | .error _ => .error { code := "CHUNK_DELETE_ERROR" }

/-- `deleteDocument` of the LibSQL service (`rag-service.ts` lines
228–241): wraps any error of the chunk deletion into `RagError`
`DOCUMENT_DELETE_ERROR`. -/
def deleteDocumentLibSql (b : FallibleBackend) : Except RagErrorModel Unit :=
  match deleteDocumentChunksLibSql b with
  | .ok u => .ok u
  | .error _ => .error { code := "DOCUMENT_DELETE_ERROR" }

/-- `deleteDocument` of `QdrantRagService` (`qdrant-rag-service.ts` lines
236–249). -/
def deleteDocumentQdrant (b : FallibleBackend) : Except RagErrorModel Unit :=
  match deleteDocumentChunksQdrant b with
  | .ok u => .ok u
  | .error _ => .error { code := "DOCUMENT_DELETE_ERROR" }

/-- `deleteDocument` of `PgVectorRagService` (`pgvector-rag-service.ts`
lines 322–335). -/
def deleteDocumentPgVector (b : FallibleBackend) :
    Except RagErrorModel Unit :=
  match deleteDocumentChunksPgVector b with
  | .ok u => .ok u
  | .error _ => .error { code := "DOCUMENT_DELETE_ERROR" }

/-- The chunks an index stores under a given `documentId` (what the
metadata-filtered deletion query targets). -/
def docChunks (d : String) (st : Store) : Store :=
  st.filter (matchesFilter (some d))

/-- Folding per-id deletions over a result list removes exactly the records
whose id occurs among the results. -/
theorem foldl_filter_ne (l : List (VecRecord × ℚ)) :
    ∀ st : Store,
      l.foldl (fun s r => s.filter fun c => c.id ≠ r.1.id) st
        = st.filter fun c => c.id ∉ l.map fun r => r.1.id := by
  induction l with
  | nil => intro st; simp
  | cons a t ih =>
      intro st
      rw [List.foldl_cons, ih, List.filter_filter]
      refine List.filter_congr fun c _ => ?_
      by_cases h1 : c.id = a.1.id <;>
        by_cases h2 : c.id ∈ t.map fun r => r.1.id <;>
          simp [h1, h2]

/-- `deleteDocumentChunks` keeps exactly the records whose id is not among
the first 1000 chunks stored under the document id (the query's `topK`
bound). -/
theorem deleteDocumentChunks_eq (e : Env) (d : String) (st : Store) :
    deleteDocumentChunks e d st
      = st.filter fun c =>
          c.id ∉ ((docChunks d st).take 1000).map fun c => c.id := by
  unfold deleteDocumentChunks storeQuery docChunks
  rw [foldl_filter_ne]
  have hpass : (st.filter (matchesFilter (some d))).filter
      (passesMinScore e.sim (List.replicate e.dims 0) none)
        = st.filter (matchesFilter (some d)) := by
    refine List.filter_eq_self.mpr fun a _ => ?_
    simp [passesMinScore]
  rw [hpass, List.map_map]
  rfl

/-- When at most 1000 chunks are stored under the id, `deleteDocumentChunks`
removes them all. -/
theorem deleteDocumentChunks_clears (e : Env) (d : String) (st : Store)
    (h : (docChunks d st).length ≤ 1000) :
    docChunks d (deleteDocumentChunks e d st) = [] := by
  rw [deleteDocumentChunks_eq, List.take_of_length_le h]
  refine List.filter_eq_nil_iff.mpr fun c hc => ?_
  intro hdoc
  have hc' := List.mem_filter.mp hc
  have hmem : c ∈ docChunks d st :=
    List.mem_filter.mpr ⟨hc'.1, hdoc⟩
  have hid : c.id ∈ (docChunks d st).map fun c => c.id :=
    List.mem_map.mpr ⟨c, hmem, rfl⟩
  have := hc'.2
  simp only [decide_eq_true_eq] at this
  exact this hid

/-- The similar-documents component of `checkForDuplicates` is the
threshold filter of the input, mapped to `SimilarDocument`s, in input
order. -/
theorem checkForDuplicates_similarDocuments (newContent : String)
    (newMeta : Meta) (results : List SearchResult)
    (cfg : DuplicateCheckConfig) (transcript : List LLMOutcome) :
    (checkForDuplicates newContent newMeta results cfg transcript).1.similarDocuments
      = (results.filter fun r => cfg.threshold ≤ r.score).map toSimilarDocument := by
  simp only [checkForDuplicates]
  split <;> rfl

/-- A decision is attached to the check result only when a duplicate was
detected. -/
theorem checkForDuplicates_decision_isDuplicate (newContent : String)
    (newMeta : Meta) (results : List SearchResult)
    (cfg : DuplicateCheckConfig) (transcript : List LLMOutcome)
    (dcr : DuplicateCheckResult) (t' : List LLMOutcome) (d : AIDecision)
    (hc : checkForDuplicates newContent newMeta results cfg transcript = (dcr, t'))
    (hd : dcr.decision = some d) :
    dcr.isDuplicate = true := by
  simp only [checkForDuplicates] at hc
  split at hc
  · exact congrArg DuplicateCheckResult.isDuplicate
      (congrArg Prod.fst hc).symm ▸ rfl
  · exfalso
    have : dcr.decision = none :=
      congrArg DuplicateCheckResult.decision (congrArg Prod.fst hc).symm ▸ rfl
    rw [hd] at this
    exact Option.noConfusion this

/-- Claim C1: for every duplicate-check configuration with threshold `t`
and every sequence of neighbor search results, `checkForDuplicates` returns
a result whose `similarDocuments` are exactly the inputs with
`score ≥ t`, each mapped by `toSimilarDocument` (whose `documentId` is the
result's `metadata.documentId`, falling back to the chunk id when absent),
and whose `isDuplicate` is true iff some input has `score ≥ t`. -/
theorem claim_c1_filter_and_flag (newContent : String) (newMeta : Meta)
    (results : List SearchResult) (cfg : DuplicateCheckConfig)
    (transcript : List LLMOutcome) :
    (checkForDuplicates newContent newMeta results cfg transcript).1.similarDocuments
      = (results.filter fun r => cfg.threshold ≤ r.score).map toSimilarDocument
    ∧ ((checkForDuplicates newContent newMeta results cfg transcript).1.isDuplicate = true
        ↔ ∃ r ∈ results, cfg.threshold ≤ r.score) := by
  refine ⟨checkForDuplicates_similarDocuments newContent newMeta results cfg transcript, ?_⟩
  have hlen : (0 < ((results.filter fun r => cfg.threshold ≤ r.score).map
      toSimilarDocument).length) ↔ ∃ r ∈ results, cfg.threshold ≤ r.score := by
    rw [List.length_map, List.length_pos]
    constructor
    · intro hne
      rcases List.exists_mem_of_ne_nil _ hne with ⟨r, hr⟩
      have hr' := List.mem_filter.mp hr
      exact ⟨r, hr'.1, by simpa using hr'.2⟩
    · rintro ⟨r, hr, hsc⟩
      intro hnil
      have : r ∈ (results.filter fun r => cfg.threshold ≤ r.score) :=
        List.mem_filter.mpr ⟨hr, by simpa using hsc⟩
      rw [hnil] at this
      exact absurd this (List.not_mem_nil r)
  simp only [checkForDuplicates]
  split <;> rename_i hsplit
  · simpa using hlen.mp hsplit
  · simpa using fun h => hsplit (hlen.mpr h)

/-- Claim C2: if the text-generation call throws, or its answer contains no
parseable JSON object, the decision is the deterministic fallback
`{action: "add", confidence: 0.5}` with no `targetDocumentId`; the error is
not propagated and the call is not retried (exactly one transcript entry is
consumed), `checkForDuplicates` still returns a full result carrying the
fallback decision, and `addDocumentWithDuplicateCheck` completes as a
normal add. -/
theorem claim_c2_llm_failure_fallback (ctx : AIDecisionContext)
    (o : LLMOutcome) (rest : List LLMOutcome)
    (h : o = LLMOutcome.failure ∨ o = LLMOutcome.reply none) :
    makeAIDecision ctx (o :: rest) = (fallbackDecision, rest)
    ∧ fallbackDecision.action = some "add"
    ∧ fallbackDecision.confidence = 0.5
    ∧ fallbackDecision.targetDocumentId = none
    ∧ (∀ (newContent : String) (newMeta : Meta)
        (results : List SearchResult) (cfg : DuplicateCheckConfig),
        (checkForDuplicates newContent newMeta results cfg (o :: rest)).1.isDuplicate = true →
          (checkForDuplicates newContent newMeta results cfg (o :: rest)).1.decision
            = some fallbackDecision)
    ∧ (∀ (e : Env) (uuid content : String) (m : Meta)
        (cfg : DuplicateCheckConfig) (st : Store), cfg.enabled = true →
        (addDocumentWithDuplicateCheck e uuid content m (some cfg) (o :: rest) st).1.action
            = "added"
        ∧ (addDocumentWithDuplicateCheck e uuid content m (some cfg) (o :: rest) st).1.document
            = (addDocument e uuid content m st).1
        ∧ (addDocumentWithDuplicateCheck e uuid content m (some cfg) (o :: rest) st).2.1
            = (addDocument e uuid content m st).2) := by
  have hproc : processLLMOutcome o = fallbackDecision := by
    rcases h with rfl | rfl <;> rfl
  have hmk : ∀ ctx2 : AIDecisionContext,
      makeAIDecision ctx2 (o :: rest) = (fallbackDecision, rest) := by
    intro ctx2
    simp [makeAIDecision, hproc]
  have hchk : ∀ (newContent : String) (newMeta : Meta)
      (results : List SearchResult) (cfg : DuplicateCheckConfig),
      (checkForDuplicates newContent newMeta results cfg (o :: rest)).1.isDuplicate = true →
        (checkForDuplicates newContent newMeta results cfg (o :: rest)).1.decision
          = some fallbackDecision := by
    intro newContent newMeta results cfg
    simp only [checkForDuplicates]
    split
    · intro _
      simp [hmk]
    · intro hfalse
      exact absurd hfalse (by simp)
  refine ⟨hmk ctx, rfl, by norm_num [fallbackDecision], rfl, hchk, ?_⟩
  intro e uuid content m cfg st hen
  simp only [addDocumentWithDuplicateCheck, hen, if_true]
  by_cases hdup :
      (checkForDuplicates content m (dupCheckProbe e cfg content st) cfg (o :: rest)).1.isDuplicate
  · have hdec := hchk content m (dupCheckProbe e cfg content st) cfg hdup
    rw [hdup, hdec]
    simp [fallbackDecision]
  · rw [if_neg hdup]
    exact ⟨rfl, rfl, rfl⟩

/-- Concrete instance of the C2 fallback theorem: a throwing call on a
trivial context. -/
def ctxW : AIDecisionContext :=
  { newContent := "x", newMeta := {}, similarDocuments := [], threshold := mkRat 9 10 }

/-- Witness for claim C2 at a concrete throwing call. -/
theorem claim_c2_witness :
    (LLMOutcome.failure = LLMOutcome.failure ∨
      LLMOutcome.failure = LLMOutcome.reply none)
    ∧ makeAIDecision ctxW [LLMOutcome.failure] = (fallbackDecision, []) :=
  ⟨Or.inl rfl,
    (claim_c2_llm_failure_fallback ctxW LLMOutcome.failure [] (Or.inl rfl)).1⟩

/-- Claim C8 counterexample: with the LibSQL backend, a chunk-deletion
step that fails (the metadata-filtered query throws) is swallowed —
`deleteDocument` reports success, no `RagError` reaches the caller. -/
def bFail : FallibleBackend :=
  { queryOutcome := Except.error (), deleteOutcome := fun _ => Except.ok () }

/-- Claim C8 is refuted on the LibSQL implementation: the chunk deletion
fails, yet `deleteDocument` returns success rather than surfacing a typed
error. -/
theorem claim_c8_counterexample :
    runChunkDeletion bFail = Except.error ()
    ∧ deleteDocumentLibSql bFail = Except.ok () :=
  ⟨rfl, rfl⟩

/-- Claim C8 as amended: only the Qdrant implementation surfaces a failed
chunk deletion (as `RagError` code `CHUNK_DELETE_ERROR`, wrapped by its
`deleteDocument` into `DOCUMENT_DELETE_ERROR`); the LibSQL and PgVector
implementations catch, log and swallow the failure, so their
`deleteDocument` reports success. -/
theorem claim_c8_amended (b : FallibleBackend)
    (h : runChunkDeletion b = Except.error ()) :
    deleteDocumentChunksQdrant b = Except.error { code := "CHUNK_DELETE_ERROR" }
    ∧ deleteDocumentQdrant b = Except.error { code := "DOCUMENT_DELETE_ERROR" }
    ∧ deleteDocumentLibSql b = Except.ok ()
    ∧ deleteDocumentPgVector b = Except.ok () := by
  refine ⟨?_, ?_, ?_, ?_⟩ <;>
    simp [deleteDocumentChunksQdrant, deleteDocumentQdrant,
      deleteDocumentLibSql, deleteDocumentChunksLibSql,
      deleteDocumentPgVector, deleteDocumentChunksPgVector, h]

/-- Witness for the amended claim C8 at the concrete failing backend. -/
theorem claim_c8_witness :
    runChunkDeletion bFail = Except.error ()
    ∧ deleteDocumentQdrant bFail
        = Except.error { code := "DOCUMENT_DELETE_ERROR" } :=
  ⟨rfl, (claim_c8_amended bFail rfl).2.1⟩

/-- The document returned by `updateDocument` carries the target id, the
supplied content (defaulting to empty) and the metadata with an update
stamp, in both branches. -/
theorem updateDocument_fst (e : Env) (d : String) (content? : Option String)
    (m : Meta) (st : Store) :
    (updateDocument e d content? m st).1
      = { id := d
          content := content?.getD ""
          meta := { m with updatedAt := some e.now } } := by
  simp only [updateDocument]
  split <;> rfl

/-- Membership in the fold implementing `storeUpsert`: every record of the
output was in the input store or is one of the upserted triples. -/
theorem mem_foldl_upsert (l : List (String × Vec × Meta)) :
    ∀ (st : Store) (c : VecRecord),
      c ∈ l.foldl
          (fun s p => (s.filter fun x => x.id ≠ p.1) ++ [⟨p.1, p.2.1, p.2.2⟩]) st →
        c ∈ st ∨ ∃ p ∈ l, c = ⟨p.1, p.2.1, p.2.2⟩ := by
  induction l with
  | nil => intro st c hc; exact Or.inl hc
  | cons a t ih =>
      intro st c hc
      rw [List.foldl_cons] at hc
      rcases ih _ c hc with h | ⟨p, hp, rfl⟩
      · rcases List.mem_append.mp h with h' | h'
        · exact Or.inl (List.mem_filter.mp h').1
        · rcases List.mem_singleton.mp h' with rfl
          exact Or.inr ⟨a, List.mem_cons_self a t, rfl⟩
      · exact Or.inr ⟨p, List.mem_cons_of_mem a hp, rfl⟩

/-- Every record of an upserted store was already stored or carries one of
the upserted metadata records. -/
theorem mem_storeUpsert (st : Store) (ids : List String) (vectors : List Vec)
    (metas : List Meta) (c : VecRecord)
    (hc : c ∈ storeUpsert st ids vectors metas) :
    c ∈ st ∨ c.meta ∈ metas := by
  rcases mem_foldl_upsert (ids.zip (vectors.zip metas)) st c hc
    with h | ⟨p, hp, rfl⟩
  · exact Or.inl h
  · obtain ⟨p1, p21, p22⟩ := p
    right
    exact (List.of_mem_zip (List.of_mem_zip hp).2).2

/-- All metadata records written by the chunk upsert carry the owning
document's id. -/
theorem chunkUpsertMetas_documentId (doc : DocModel) (chunks : List ChunkModel)
    (mm : Meta) (h : mm ∈ chunkUpsertMetas doc chunks) :
    mm.documentId = some doc.id := by
  unfold chunkUpsertMetas at h
  rw [List.mapIdx_eq_enum_map] at h
  rcases List.mem_map.mp h with ⟨p, _, rfl⟩
  rfl

/-- Every record stored after `updateDocument` was stored before or belongs
to the updated document. -/
theorem updateDocument_store_docIds (e : Env) (d : String)
    (content? : Option String) (m : Meta) (st : Store) (c : VecRecord)
    (hc : c ∈ (updateDocument e d content? m st).2) :
    c ∈ st ∨ c.meta.documentId = some d := by
  have hdel : ∀ x : VecRecord, x ∈ deleteDocumentChunks e d st → x ∈ st := by
    intro x hx
    rw [deleteDocumentChunks_eq] at hx
    exact (List.mem_filter.mp hx).1
  simp only [updateDocument] at hc
  split at hc
  · exact Or.inl (hdel c hc)
  · rcases mem_storeUpsert _ _ _ _ c hc with h | h
    · exact Or.inl (hdel c h)
    · exact Or.inr (chunkUpsertMetas_documentId _ _ _ h)

/-- Claim C3: whenever the internal similarity probe of `addDocument` (the
`topK: 1` search on the first 100 characters) returns a top result with
score above 0.95, the call is redirected to `updateDocument` on the
existing document's id (`metadata.documentId || id`), the returned
document carries that id — and, provided the fresh id occurs nowhere, no
chunk is stored under the freshly generated id. -/
theorem claim_c3_probe_redirects (e : Env) (uuid content : String) (m : Meta)
    (st : Store) (r : SearchResult) (rest : List SearchResult)
    (h1 : searchDocuments e st (content.take 100) 1 0 = r :: rest)
    (h2 : (0.95 : ℚ) < r.score)
    (h3 : ∀ c ∈ st, c.meta.documentId ≠ some uuid)
    (h4 : jsOr r.meta.documentId r.id ≠ uuid) :
    addDocument e uuid content m st
      = updateDocument e (jsOr r.meta.documentId r.id) (some content) m st
    ∧ (addDocument e uuid content m st).1.id = jsOr r.meta.documentId r.id
    ∧ ∀ c ∈ (addDocument e uuid content m st).2,
        c.meta.documentId ≠ some uuid := by
  have hfind : findExistingDocument e st content
      = some { id := jsOr r.meta.documentId r.id
               content := r.content
               meta := r.meta } := by
    have h2m : mkRat 95 100 < r.score := by
      rw [show (mkRat 95 100 : ℚ) = 0.95 by norm_num]
      exact h2
    unfold findExistingDocument
    rw [h1]
    simp [h2m]
  have hmain : addDocument e uuid content m st
      = updateDocument e (jsOr r.meta.documentId r.id) (some content) m st := by
    unfold addDocument
    rw [hfind]
  refine ⟨hmain, by rw [hmain, updateDocument_fst], ?_⟩
  intro c hc hbad
  rw [hmain] at hc
  rcases updateDocument_store_docIds e _ _ m st c hc with h | h
  · exact h3 c h hbad
  · rw [h] at hbad
    exact h4 (Option.some.injEq _ _ ▸ hbad)

/-- Claim C6: a `skip` decision returns the placeholder document (with
`skipped: true` in its metadata) and performs no storage writes — the
store component of the result is exactly the input store. -/
theorem claim_c6_skip_is_pure (e : Env) (uuid content : String) (m : Meta)
    (cfg : DuplicateCheckConfig) (transcript t' : List LLMOutcome)
    (st : Store) (dcr : DuplicateCheckResult) (d : AIDecision)
    (hen : cfg.enabled = true)
    (hc : checkForDuplicates content m (dupCheckProbe e cfg content st) cfg
        transcript = (dcr, t'))
    (hd : dcr.decision = some d)
    (ha : d.action = some "skip") :
    addDocumentWithDuplicateCheck e uuid content m (some cfg) transcript st
      = ({ document := createSkippedDocument e uuid content m
           duplicateCheck := some dcr
           action := "skipped"
           message := "ドキュメントの追加をスキップしました。理由: " ++ d.reason },
         st, t')
    ∧ (createSkippedDocument e uuid content m).meta.skipped = some true := by
  have hdup : dcr.isDuplicate = true :=
    checkForDuplicates_decision_isDuplicate content m _ cfg transcript
      dcr t' d hc hd
  refine ⟨?_, rfl⟩
  simp only [addDocumentWithDuplicateCheck, hen, if_true, hc, hdup, hd, ha]

/-- Claim C7 as amended: an `update` decision without a truthy
`targetDocumentId` falls through to the normal `addDocument` path and is
reported as `"added"` — but the result is whatever `addDocument` produces,
and `addDocument`'s own internal probe may still redirect to an update of
an existing document, so a fresh document is not guaranteed. -/
theorem claim_c7_amended (e : Env) (uuid content : String) (m : Meta)
    (cfg : DuplicateCheckConfig) (transcript t' : List LLMOutcome)
    (st : Store) (dcr : DuplicateCheckResult) (d : AIDecision)
    (hen : cfg.enabled = true)
    (hc : checkForDuplicates content m (dupCheckProbe e cfg content st) cfg
        transcript = (dcr, t'))
    (hd : dcr.decision = some d)
    (ha : d.action = some "update")
    (htgt : jsSome d.targetDocumentId = none) :
    addDocumentWithDuplicateCheck e uuid content m (some cfg) transcript st
      = ({ document := (addDocument e uuid content m st).1
           duplicateCheck := some dcr
           action := "added"
           message := addedMessage (some dcr) },
         (addDocument e uuid content m st).2, t') := by
  have hdup : dcr.isDuplicate = true :=
    checkForDuplicates_decision_isDuplicate content m _ cfg transcript
      dcr t' d hc hd
  simp only [addDocumentWithDuplicateCheck, hen, if_true, hc, hdup, hd, ha,
    htgt]
  simp

/-- Claim C10: with the duplicate check omitted or disabled,
`addDocumentWithDuplicateCheck` is `addDocument` plus the `"added"` action
and an undefined `duplicateCheck`; the LLM transcript is untouched. -/
theorem claim_c10_disabled_equiv (e : Env) (uuid content : String) (m : Meta)
    (transcript : List LLMOutcome) (st : Store)
    (config? : Option DuplicateCheckConfig)
    (h : config? = none ∨ ∃ cfg, config? = some cfg ∧ cfg.enabled = false) :
    addDocumentWithDuplicateCheck e uuid content m config? transcript st
      = ({ document := (addDocument e uuid content m st).1
           duplicateCheck := none
           action := "added"
           message := addedMessage none },
         (addDocument e uuid content m st).2, transcript) := by
  rcases h with rfl | ⟨cfg, rfl, hcfg⟩
  · rfl
  · simp [addDocumentWithDuplicateCheck, hcfg]

/-- Concrete environment for the witnesses: every embedding is the empty
vector, every similarity is 1, the chunker returns the whole content as a
single chunk. -/
def envW : Env :=
  { embedOf := fun _ => []
    sim := fun _ _ => 1
    chunkTexts := fun s => [s]
    dims := 1
    now := "T" }

/-- Concrete stored chunk of document `doc1` for the witnesses. -/
def recW : VecRecord :=
  { id := "c0"
    vector := []
    meta := { documentId := some "doc1", chunkId := some "c0"
              text := some "hello" } }

/-- Concrete one-chunk store for the witnesses. -/
def stW : Store := [recW]

/-- Empty metadata. -/
def meta0W : Meta := {}

/-- The probe result `searchDocuments` returns on `stW` for the C3
witness. -/
def r0W : SearchResult :=
  { id := "c0"
    content := "hello"
    meta := { documentId := some "doc1", chunkId := some "c0"
              text := some "hello", chunkIndex := some 0
              startPosition := some 0, endPosition := some 0 }
    score := 1 }

/-- Witness for claim C3 at the concrete store: the probe returns a score-1
top result and the add call becomes an update of `doc1`. -/
theorem claim_c3_witness :
    searchDocuments envW stW ("hello".take 100) 1 0 = [r0W]
    ∧ addDocument envW "u1" "hello" meta0W stW
        = updateDocument envW (jsOr r0W.meta.documentId r0W.id)
            (some "hello") meta0W stW :=
  ⟨by decide,
    (claim_c3_probe_redirects envW "u1" "hello" meta0W stW r0W []
      (by decide) (by norm_num [r0W]) (by decide) (by decide)).1⟩

/-- Concrete duplicate-check configuration for the witnesses. -/
def cfgW : DuplicateCheckConfig := { enabled := true, threshold := mkRat 1 2 }

/-- A parsed reply deciding `skip`. -/
def skipParsed : ParsedDecision :=
  { action := some "skip", reason := some "dup", targetDocumentId := none
    confidence := some 1 }

/-- One-call transcript replying `skip`. -/
def tSkip : List LLMOutcome := [LLMOutcome.reply (some skipParsed)]

/-- The duplicate-check result computed on the witness store under the
`skip` transcript. -/
def dcrSkipW : DuplicateCheckResult :=
  (checkForDuplicates "hello" meta0W (dupCheckProbe envW cfgW "hello" stW)
    cfgW tSkip).1

/-- The decision of the `skip` transcript. -/
def dSkipW : AIDecision := processLLMOutcome (LLMOutcome.reply (some skipParsed))

/-- Witness for claim C6 at the concrete store and `skip` transcript. -/
theorem claim_c6_witness :
    dcrSkipW.decision = some dSkipW
    ∧ addDocumentWithDuplicateCheck envW "u1" "hello" meta0W (some cfgW)
        tSkip stW
      = ({ document := createSkippedDocument envW "u1" "hello" meta0W
           duplicateCheck := some dcrSkipW
           action := "skipped"
           message := "ドキュメントの追加をスキップしました。理由: " ++ dSkipW.reason },
         stW, []) :=
  ⟨by decide,
    (claim_c6_skip_is_pure envW "u1" "hello" meta0W cfgW tSkip [] stW
      dcrSkipW dSkipW rfl (by decide) (by decide) (by decide)).1⟩

/-- A parsed reply deciding `update` without a target id. -/
def updParsed : ParsedDecision :=
  { action := some "update", reason := some "newer", targetDocumentId := none
    confidence := some 1 }

/-- One-call transcript replying `update` with no target. -/
def tUpd : List LLMOutcome := [LLMOutcome.reply (some updParsed)]

/-- Claim C7 is refuted as stated: on the concrete store, an `update`
decision without target falls through to `addDocument`, which is reported
as `"added"` — but `addDocument`'s probe redirects to the existing
document `doc1`, so no fresh document is created and the stored chunks of
`doc1` are rewritten. -/
theorem claim_c7_counterexample :
    (addDocumentWithDuplicateCheck envW "u1" "hello" meta0W (some cfgW)
        tUpd stW).1.action = "added"
    ∧ (addDocumentWithDuplicateCheck envW "u1" "hello" meta0W (some cfgW)
        tUpd stW).1.document.id = "doc1"
    ∧ (addDocumentWithDuplicateCheck envW "u1" "hello" meta0W (some cfgW)
        tUpd stW).1.document.id ≠ "u1"
    ∧ (addDocumentWithDuplicateCheck envW "u1" "hello" meta0W (some cfgW)
        tUpd stW).2.1 ≠ stW := by
  exact ⟨by decide, by decide, by decide, by decide⟩

/-- The duplicate-check result computed on the witness store under the
`update`-without-target transcript. -/
def dcrUpdW : DuplicateCheckResult :=
  (checkForDuplicates "hello" meta0W (dupCheckProbe envW cfgW "hello" stW)
    cfgW tUpd).1

/-- The decision of the `update`-without-target transcript. -/
def dUpdW : AIDecision := processLLMOutcome (LLMOutcome.reply (some updParsed))

/-- Witness for the amended claim C7 at the concrete store. -/
theorem claim_c7_witness :
    dcrUpdW.decision = some dUpdW
    ∧ addDocumentWithDuplicateCheck envW "u1" "hello" meta0W (some cfgW)
        tUpd stW
      = ({ document := (addDocument envW "u1" "hello" meta0W stW).1
           duplicateCheck := some dcrUpdW
           action := "added"
           message := addedMessage (some dcrUpdW) },
         (addDocument envW "u1" "hello" meta0W stW).2, []) :=
  ⟨by decide,
    claim_c7_amended envW "u1" "hello" meta0W cfgW tUpd [] stW
      dcrUpdW dUpdW rfl (by decide) (by decide) (by decide) (by decide)⟩

/-- Witness for claim C10: with the config omitted the duplicate-aware
entry point is exactly `addDocument` plus the `"added"` action. -/
theorem claim_c10_witness :
    addDocumentWithDuplicateCheck envW "u1" "hello" meta0W none [] stW
      = ({ document := (addDocument envW "u1" "hello" meta0W stW).1
           duplicateCheck := none
           action := "added"
           message := addedMessage none },
         (addDocument envW "u1" "hello" meta0W stW).2, []) :=
  claim_c10_disabled_equiv envW "u1" "hello" meta0W [] stW none (Or.inl rfl)

/-- With content omitted, `updateDocument` leaves exactly the store of the
chunk deletion — no upsert happens. -/
theorem updateDocument_none_snd (e : Env) (d : String) (m : Meta) (st : Store) :
    (updateDocument e d none m st).2 = deleteDocumentChunks e d st := rfl

/-- Claim C4 as amended: for every document whose stored chunk count is at
most 1000 (the deletion query's `topK` bound), `updateDocument` with
content omitted deletes all its chunks and upserts none — afterwards the
chunk count is 0 and the returned document is a metadata-only rewrite. -/
theorem claim_c4_amended (e : Env) (d : String) (m : Meta) (st : Store)
    (h : (docChunks d st).length ≤ 1000) :
    (docChunks d (updateDocument e d none m st).2).length = 0
    ∧ (updateDocument e d none m st).2 = deleteDocumentChunks e d st
    ∧ (updateDocument e d none m st).1
        = { id := d, content := ""
            meta := { m with updatedAt := some e.now } } := by
  have hsnd := updateDocument_none_snd e d m st
  refine ⟨?_, hsnd, updateDocument_fst e d none m st⟩
  rw [hsnd, deleteDocumentChunks_clears e d st h]
  rfl

/-- Witness for the amended claim C4 at the concrete one-chunk store. -/
theorem claim_c4_witness :
    (docChunks "doc1" stW).length ≤ 1000
    ∧ (docChunks "doc1" (updateDocument envW "doc1" none meta0W stW).2).length
        = 0 :=
  ⟨by decide, (claim_c4_amended envW "doc1" meta0W stW (by decide)).1⟩

/-- One chunk of the 1001-chunk document `d` used to refute claims C4 and
C5: ids as `addDocument` generates them. -/
def cexRec (i : Nat) : VecRecord :=
  { id := "d_chunk_" ++ toString i
    vector := []
    meta := { documentId := some "d" } }

/-- A store holding 1001 chunks of the single document `d` — one more than
the deletion query's `topK` bound. -/
def cexStore : Store := (List.range 1001).map cexRec

/-- Every record of the counterexample store belongs to document `d`. -/
theorem cex_docChunks : docChunks "d" cexStore = cexStore := by
  refine List.filter_eq_self.mpr fun a ha => ?_
  rcases List.mem_map.mp ha with ⟨i, _, rfl⟩
  simp [cexRec, matchesFilter]

/-- The first 1000 records of the counterexample store. -/
theorem cex_take : cexStore.take 1000 = (List.range 1000).map cexRec := by
  show ((List.range 1001).map cexRec).take 1000 = _
  rw [List.range_succ 1000, List.map_append]
  exact List.take_left' (by simp)

set_option maxRecDepth 4000 in
/-- The 1001st chunk's id is not among the 1000 ids the deletion query
returns. -/
theorem cex_survivor_id :
    (cexRec 1000).id ∉ ((List.range 1000).map cexRec).map fun c => c.id := by
  decide

set_option maxRecDepth 4000 in
/-- The 1001st chunk of document `d` survives `deleteDocumentChunks`. -/
theorem cex_survivor_mem :
    cexRec 1000 ∈ docChunks "d" (deleteDocumentChunks envW "d" cexStore) := by
  unfold docChunks
  rw [deleteDocumentChunks_eq, cex_docChunks, cex_take]
  refine List.mem_filter.mpr ⟨List.mem_filter.mpr ⟨?_, ?_⟩, ?_⟩
  · exact List.mem_map.mpr ⟨1000, List.mem_range.mpr (by norm_num), rfl⟩
  · simpa using cex_survivor_id
  · simp [cexRec, matchesFilter]

set_option maxRecDepth 10000 in
/-- Claim C4 is refuted as universally stated: on a document with 1001
stored chunks, `updateDocument` with content omitted leaves a nonzero
chunk count (the deletion query returns at most 1000 chunks). -/
theorem claim_c4_counterexample :
    (docChunks "d" (updateDocument envW "d" none meta0W cexStore).2).length
      ≠ 0 := by
  have hmem := cex_survivor_mem
  rw [updateDocument_none_snd]
  intro h0
  rw [List.length_eq_zero] at h0
  rw [h0] at hmem
  exact absurd hmem (List.not_mem_nil _)

/-- Claim C5 as amended: when the document's chunk count was at most 1000
(the deletion query's `topK` bound), a second `deleteDocument` finds no
chunks and deletes nothing — and `deleteDocument` never surfaces an error
(the LibSQL chunk deletion swallows every backend failure). -/
theorem claim_c5_amended (e : Env) (d : String) (st : Store)
    (h : (docChunks d st).length ≤ 1000) :
    storeQuery e.sim (deleteDocument e d st) (List.replicate e.dims 0) 1000
        (some d) none = []
    ∧ deleteDocument e d (deleteDocument e d st) = deleteDocument e d st
    ∧ ∀ b : FallibleBackend, deleteDocumentLibSql b = Except.ok () := by
  have hclear : docChunks d (deleteDocument e d st) = [] :=
    deleteDocumentChunks_clears e d st h
  have hq : storeQuery e.sim (deleteDocument e d st)
      (List.replicate e.dims 0) 1000 (some d) none = [] := by
    unfold storeQuery
    rw [show (deleteDocument e d st).filter (matchesFilter (some d))
        = docChunks d (deleteDocument e d st) from rfl, hclear]
    rfl
  refine ⟨hq, ?_, ?_⟩
  · show deleteDocumentChunks e d (deleteDocument e d st) = deleteDocument e d st
    simp only [deleteDocumentChunks]
    rw [hq]
    rfl
  · intro b
    cases hr : runChunkDeletion b <;>
      simp [deleteDocumentLibSql, deleteDocumentChunksLibSql, hr]

/-- Witness for the amended claim C5 at the concrete one-chunk store. -/
theorem claim_c5_witness :
    (docChunks "doc1" stW).length ≤ 1000
    ∧ storeQuery envW.sim (deleteDocument envW "doc1" stW)
        (List.replicate envW.dims 0) 1000 (some "doc1") none = [] :=
  ⟨by decide, (claim_c5_amended envW "doc1" stW (by decide)).1⟩

set_option maxRecDepth 10000 in
/-- Claim C5 is refuted as universally stated: after deleting the
1001-chunk document `d`, a second `deleteDocument`'s query still finds a
chunk — the second call is not a pure no-op. -/
theorem claim_c5_counterexample :
    storeQuery envW.sim (deleteDocument envW "d" cexStore)
      (List.replicate envW.dims 0) 1000 (some "d") none ≠ [] := by
  intro hnil
  have hmem := cex_survivor_mem
  unfold storeQuery at hnil
  rw [List.map_eq_nil_iff, List.take_eq_nil_iff] at hnil
  rcases hnil with h1000 | hflt
  · exact absurd h1000 (by norm_num)
  · have hpass : passesMinScore envW.sim (List.replicate envW.dims 0) none
        (cexRec 1000) = true := rfl
    have hm2 : cexRec 1000 ∈ ((deleteDocument envW "d" cexStore).filter
        (matchesFilter (some "d"))).filter
          (passesMinScore envW.sim (List.replicate envW.dims 0) none) :=
      List.mem_filter.mpr ⟨hmem, hpass⟩
    rw [hflt] at hm2
    exact absurd hm2 (List.not_mem_nil _)

/-- A low-score neighbor, above the 0.9 threshold. -/
def rLow : SearchResult :=
  { id := "a", content := "", meta := {}, score := mkRat 91 100 }

/-- A high-score neighbor. -/
def rHigh : SearchResult :=
  { id := "b", content := "", meta := {}, score := mkRat 99 100 }

/-- Threshold-0.9 configuration for the C9 instances. -/
def cfg9 : DuplicateCheckConfig := { enabled := true, threshold := mkRat 9 10 }

/-- Claim C9 is refuted as stated: `checkForDuplicates` does not sort —
when the backend returns neighbors in ascending score order, the
`similarDocuments` of the result are not in descending score order. -/
theorem claim_c9_counterexample :
    ¬ List.Pairwise (fun a b : SimilarDocument => b.score ≤ a.score)
      ((checkForDuplicates "x" meta0W [rLow, rHigh] cfg9 []).1.similarDocuments) := by
  decide

/-- Claim C9 as amended: `similarDocuments` preserves the input order of
the neighbor results (the filter keeps order), so it is in descending
score order whenever the backend's results are. -/
theorem claim_c9_amended (newContent : String) (newMeta : Meta)
    (results : List SearchResult) (cfg : DuplicateCheckConfig)
    (transcript : List LLMOutcome)
    (h : List.Pairwise (fun a b : SearchResult => b.score ≤ a.score) results) :
    List.Pairwise (fun a b : SimilarDocument => b.score ≤ a.score)
      ((checkForDuplicates newContent newMeta results cfg transcript).1.similarDocuments) := by
  rw [checkForDuplicates_similarDocuments]
  exact List.pairwise_map.mpr ((h.filter _).imp fun hab => hab)

/-- Witness for the amended claim C9 on a descending-order input. -/
theorem claim_c9_witness :
    List.Pairwise (fun a b : SimilarDocument => b.score ≤ a.score)
      ((checkForDuplicates "x" meta0W [rHigh, rLow] cfg9 []).1.similarDocuments) :=
  claim_c9_amended "x" meta0W [rHigh, rLow] cfg9 [] (by decide)

end RagDB
